import Mathlib

/-!
Verification of the RSCapture capture core: a shallow embedding of
`core/capture_manager.py`, `core/video_processor.py` and
`ui/selection_overlay.py`, together with theorems settling the specified
behaviour of `CaptureManager.start_capture` / `stop_capture` /
`is_capturing`, `VideoProcessor.re_encode_video` / `delete_temp_file`,
and the `SelectionOverlay` mouse-drag state machine (PyQt6 `QRect`
integer semantics).
-/

/-! ## CaptureManager (core/capture_manager.py) -/

/-- An external process handle (a `subprocess.Popen` object).  `alive`
holds iff `poll()` currently returns `None` (the process has not
exited); `exitsWithinGrace` records whether the process exits within the
5-second window of `wait(timeout=5)` after `terminate()` is sent. -/
structure Proc where
  pid : Nat
  alive : Bool
  exitsWithinGrace : Bool
  deriving DecidableEq

/-- The running test used by lines 40, 88 and 107 of the source:
`self.ffmpeg_process and self.ffmpeg_process.poll() is None`. -/
def procRunning : Option Proc → Bool
  | some p => p.alive
  | none => false

/-- The mutable fields of `CaptureManager` (`__init__`, lines 12-14). -/
structure CMState where
  ffmpeg_process : Option Proc
  temp_output_file : Option String
  deriving DecidableEq

/-- OS-level exceptions `subprocess.Popen` may raise; both except-arms of
`start_capture` (lines 75-80) catch them and return `False`. -/
inductive SpawnExc
  | fileNotFound
  | other
  deriving DecidableEq

/-- Environment of one `start_capture` call: whether
`shutil.which("ffmpeg")` finds the tool (`_check_ffmpeg`), the value of
the `DISPLAY` environment variable, and the behaviour of
`subprocess.Popen` if it is invoked. -/
structure SpawnEnv where
  ffmpegFound : Bool
  display : Option String
  spawnResult : Except SpawnExc Proc

/-- The distinct return points of `start_capture`; the Python function
collapses the three failure points to the single value `False`
(see `StartResult.toBool`). -/
inductive StartResult
  | started
  | toolNotFound
  | alreadyRunning
  | spawnFailed
  deriving DecidableEq

/-- The boolean actually returned by the Python `start_capture`. -/
def StartResult.toBool : StartResult → Bool
  | .started => true
  | _ => false

/-- Outcome of a `start_capture` call: which return point was taken, the
fields of the manager after the call, and the argv handed to
`subprocess.Popen` (`none` when `Popen` was never invoked). -/
structure StartOutcome where
  result : StartResult
  state : CMState
  command : Option (List String)
  deriving DecidableEq

/-- The `ffmpeg_command` list built at lines 55-64 of the source. -/
def capture_command (display : String) (x y width height : Int)
    (out : String) : List String :=
  ["ffmpeg",
   "-f", "x11grab",
   "-s", toString width ++ "x" ++ toString height,
   "-i", display ++ "+" ++ toString x ++ "," ++ toString y,
   "-c:v", "libx264",
   "-preset", "ultrafast",
   "-qp", "0",
   out]

/-- `CaptureManager.start_capture` (lines 24-80).  The ffmpeg check comes
first; then the already-running check; only then is
`self.temp_output_file` overwritten and the spawn attempted. -/
def start_capture (env : SpawnEnv) (s : CMState) (x y width height : Int)
    (output_file : String) : StartOutcome :=
  if env.ffmpegFound = false then
    ⟨.toolNotFound, s, none⟩
  else if procRunning s.ffmpeg_process then
    ⟨.alreadyRunning, s, none⟩
  else
    let s1 : CMState := { s with temp_output_file := some output_file }
    let display := env.display.getD ":0.0"
    let cmd := capture_command display x y width height output_file
    match env.spawnResult with
    | .ok p => ⟨.started, { s1 with ffmpeg_process := some p }, some cmd⟩
    | .error _ => ⟨.spawnFailed, s1, some cmd⟩

/-- The exception `Popen.wait(timeout=5)` raises when the process does
not exit within the timeout; `stop_capture` does not catch it. -/
inductive StopExc
  | timeoutExpired
  deriving DecidableEq

/-- Semantics of `terminate()` followed by `wait(timeout=5)` (lines
90-91): if the process exits within the grace window the wait returns
and the process is no longer alive, otherwise `TimeoutExpired` is
raised. -/
def wait_graceful (p : Proc) : Except StopExc Proc :=
  if p.exitsWithinGrace then .ok { p with alive := false }
  else .error .timeoutExpired

/-- `CaptureManager.stop_capture` (lines 82-99).  Mirrors the source: the
un-caught `TimeoutExpired` of `wait(timeout=5)` surfaces as an
`Except.error`; after a wait that returned normally the process is dead,
so the `kill()` branch of lines 92-94 only fires when `poll()` is still
`None`. -/
def stop_capture (s : CMState) : Except StopExc (Option String × CMState) :=
  match s.ffmpeg_process with
  | some p =>
    if p.alive then
      match wait_graceful p with
      | .ok p1 =>
        let p2 := if p1.alive then { p1 with alive := false } else p1
        .ok (s.temp_output_file, { s with ffmpeg_process := some p2 })
      | .error e => .error e
    else
      .ok (none, s)
  | none => .ok (none, s)

/-- `CaptureManager.is_capturing` (lines 101-107). -/
def is_capturing (s : CMState) : Bool :=
  procRunning s.ffmpeg_process

/-! ## VideoProcessor (core/video_processor.py) -/

/-- The `quality_settings` table of `VideoProcessor.__init__`
(lines 12-16): quality level name to CRF value. -/
def quality_settings : List (String × Nat) :=
  [("Low", 28), ("Medium", 23), ("High", 18)]

/-- The distinct return points of `re_encode_video`; the Python function
collapses all failure points to the single value `False`. -/
inductive EncodeResult
  | success
  | toolNotFound
  | sourceMissing
  | invalidQuality
  | encodeFailed
  deriving DecidableEq

/-- Exceptions `subprocess.run(..., check=True)` may raise; all three
except-arms of `re_encode_video` (lines 75-85) catch them and return
`False`. -/
inductive RunExc
  | calledProcessError
  | fileNotFound
  | other
  deriving DecidableEq

/-- Environment of one `re_encode_video` call: whether
`shutil.which("ffmpeg")` finds the tool, whether
`os.path.exists(input_file)` holds, and the behaviour of
`subprocess.run` if it is invoked. -/
structure EncodeEnv where
  ffmpegFound : Bool
  inputExists : Bool
  runResult : Except RunExc Unit

/-- Outcome of a `re_encode_video` call: which return point was taken and
the argv handed to `subprocess.run` (`none` when `run` was never
invoked). -/
structure EncodeOutcome where
  result : EncodeResult
  command : Option (List String)
  deriving DecidableEq

/-- The `ffmpeg_command` list built at lines 51-60 of the source. -/
def transcode_command (input_file output_file : String) (crf : Nat) :
    List String :=
  ["ffmpeg",
   "-i", input_file,
   "-c:v", "libx264",
   "-crf", toString crf,
   "-preset", "medium",
   "-c:a", "copy",
   "-y",
   output_file]

/-- `VideoProcessor.re_encode_video` (lines 26-85): ffmpeg check, then
source-existence check, then quality-level check, then the blocking
`subprocess.run`. -/
def re_encode_video (env : EncodeEnv) (input_file output_file : String)
    (quality_level : String) : EncodeOutcome :=
  if env.ffmpegFound = false then
    ⟨.toolNotFound, none⟩
  else if env.inputExists = false then
    ⟨.sourceMissing, none⟩
  else
    match List.lookup quality_level quality_settings with
    | none => ⟨.invalidQuality, none⟩
    | some crf =>
      let cmd := transcode_command input_file output_file crf
      match env.runResult with
      | .ok _ => ⟨.success, some cmd⟩
      | .error _ => ⟨.encodeFailed, some cmd⟩

/-- A model filesystem: the list of paths that currently exist. -/
structure FS where
  files : List String
  deriving DecidableEq

/-- `os.path.exists` over the model filesystem. -/
def FS.existsFile (fs : FS) (path : String) : Bool :=
  fs.files.contains path

/-- An OS-level error raised by `os.remove` (for example a permission
failure). -/
inductive OsError
  | removeFailed
  deriving DecidableEq

/-- Semantics of `os.remove`: removes the path from the filesystem, or
raises an OS-level error (modelled by the `removeRaises` flag). -/
def os_remove (removeRaises : Bool) (fs : FS) (path : String) :
    Except OsError FS :=
  if removeRaises then .error .removeFailed
  else .ok ⟨fs.files.filter (fun q => !(q == path))⟩

/-- `VideoProcessor.delete_temp_file` (lines 87-98): only acts when the
file exists; a raising `os.remove` is caught and logged, never
re-raised. -/
def delete_temp_file (removeRaises : Bool) (fs : FS) (path : String) :
    Except OsError FS :=
  if fs.existsFile path then
    match os_remove removeRaises fs path with
    | .ok fs1 => .ok fs1
    | .error _ => .ok fs
  else
    .ok fs

/-! ## SelectionOverlay (ui/selection_overlay.py)

The rectangle type is PyQt6's integer `QRect`: it stores its left/top
and right/bottom coordinates, the corner constructor takes the second
point as the inclusive bottom-right corner (so `width = x2 - x1 + 1`),
and Qt 6's `normalized()` swaps the x-corners when `x2 < x1` and the
y-corners when `y2 < y1`. -/

/-- A `QPoint`. -/
structure QPoint where
  x : Int
  y : Int
  deriving DecidableEq

/-- A `QRect`, stored the way Qt stores it: left, top, right, bottom,
with right and bottom inclusive. -/
structure QRect where
  x1 : Int
  y1 : Int
  x2 : Int
  y2 : Int
  deriving DecidableEq

/-- The `QRect(topLeft, bottomRight)` constructor used at lines 92 and
101 of the source. -/
def QRect.fromPoints (topLeft bottomRight : QPoint) : QRect :=
  ⟨topLeft.x, topLeft.y, bottomRight.x, bottomRight.y⟩

/-- `QRect.x()`. -/
def QRect.x (r : QRect) : Int := r.x1

/-- `QRect.y()`. -/
def QRect.y (r : QRect) : Int := r.y1

/-- `QRect.width()`: Qt's inclusive-corner convention. -/
def QRect.width (r : QRect) : Int := r.x2 - r.x1 + 1

/-- `QRect.height()`: Qt's inclusive-corner convention. -/
def QRect.height (r : QRect) : Int := r.y2 - r.y1 + 1

/-- Qt 6 `QRect.normalized()`: swap the x-corners when `x2 < x1`, the
y-corners when `y2 < y1`. -/
def QRect.normalized (r : QRect) : QRect :=
  ⟨if r.x2 < r.x1 then r.x2 else r.x1,
   if r.y2 < r.y1 then r.y2 else r.y1,
   if r.x2 < r.x1 then r.x1 else r.x2,
   if r.y2 < r.y1 then r.y1 else r.y2⟩

/-- Mouse buttons relevant to the overlay (`event.button()`). -/
inductive MouseButton
  | left
  | right
  deriving DecidableEq

/-- The mutable selection fields of `SelectionOverlay` (lines 27-29). -/
structure OverlayState where
  start_point : Option QPoint
  end_point : Option QPoint
  current_rect : Option QRect
  deriving DecidableEq

/-- The state after `showEvent` (lines 33-40): all selection fields
reset. -/
def showOverlay : OverlayState := ⟨none, none, none⟩

/-- `SelectionOverlay.mousePressEvent` (lines 84-93). -/
def mousePressEvent (s : OverlayState) (button : MouseButton)
    (pos : QPoint) : OverlayState :=
  if button = MouseButton.left then
    { start_point := some pos,
      end_point := some pos,
      current_rect := some ((QRect.fromPoints pos pos).normalized) }
  else s

/-- `SelectionOverlay.mouseMoveEvent` (lines 95-102). -/
def mouseMoveEvent (s : OverlayState) (pos : QPoint) : OverlayState :=
  match s.start_point with
  | some sp =>
    { s with
      end_point := some pos,
      current_rect := some ((QRect.fromPoints sp pos).normalized) }
  | none => s

/-- `SelectionOverlay.mouseReleaseEvent` (lines 104-114): emits
`selection_made(x, y, width, height)` exactly when the final rectangle
is present with positive width and height.  The second component lists
the emissions of the call. -/
def mouseReleaseEvent (s : OverlayState) (button : MouseButton)
    (_pos : QPoint) : OverlayState × List (Int × Int × Int × Int) :=
  if button = MouseButton.left ∧ s.start_point ≠ none then
    match s.current_rect with
    | some final_rect =>
      if 0 < final_rect.width ∧ 0 < final_rect.height then
        (s, [(final_rect.x, final_rect.y, final_rect.width,
              final_rect.height)])
      else (s, [])
    | none => (s, [])
  else (s, [])

/-- The pointer events the overlay reacts to. -/
inductive MouseEvent
  | press (button : MouseButton) (pos : QPoint)
  | move (pos : QPoint)
  | release (button : MouseButton) (pos : QPoint)
  deriving DecidableEq

/-- Dispatch one event to its handler, collecting emissions. -/
def processEvent (s : OverlayState) : MouseEvent →
    OverlayState × List (Int × Int × Int × Int)
  | .press b p => (mousePressEvent s b p, [])
  | .move p => (mouseMoveEvent s p, [])
  | .release b p => mouseReleaseEvent s b p

/-- Run a list of events through the overlay, collecting every
`selection_made` emission in order. -/
def processEvents (s : OverlayState) : List MouseEvent →
    OverlayState × List (Int × Int × Int × Int)
  | [] => (s, [])
  | e :: es =>
    let r1 := processEvent s e
    let r2 := processEvents r1.1 es
    (r2.1, r1.2 ++ r2.2)

/-- The emissions of a gesture started on a freshly shown overlay. -/
def emissions (es : List MouseEvent) : List (Int × Int × Int × Int) :=
  (processEvents showOverlay es).2

/-- A complete drag gesture: press at `a`, move to `b`, release at `b`. -/
def dragGesture (a b : QPoint) : List MouseEvent :=
  [.press .left a, .move b, .release .left b]

/-! ## Helper lemmas -/

/-- Filtering a path out of a file list makes `contains` false for it. -/
theorem contains_filter_self (l : List String) (path : String) :
    (l.filter (fun q => !(q == path))).contains path = false := by
  simp

/-- Unconditional closed form of a completed drag gesture: exactly one
emission, at the min corner, with Qt's inclusive-corner width and
height. -/
theorem emissions_dragGesture (a b : QPoint) :
    emissions (dragGesture a b) =
      [(min a.x b.x, min a.y b.y,
        ((b.x - a.x).natAbs : Int) + 1, ((b.y - a.y).natAbs : Int) + 1)] := by
  rcases lt_or_ge b.x a.x with hx | hx <;> rcases lt_or_ge b.y a.y with hy | hy
  · have hw : (0 : Int) < a.x - b.x + 1 := by omega
    have hh : (0 : Int) < a.y - b.y + 1 := by omega
    have habx : |b.x - a.x| = a.x - b.x := by
      rw [abs_sub_comm]; exact abs_of_nonneg (by omega)
    have haby : |b.y - a.y| = a.y - b.y := by
      rw [abs_sub_comm]; exact abs_of_nonneg (by omega)
    simp [emissions, dragGesture, processEvents, processEvent, showOverlay,
      mousePressEvent, mouseMoveEvent, mouseReleaseEvent, QRect.fromPoints,
      QRect.normalized, QRect.width, QRect.height, QRect.x, QRect.y, hx, hy,
      hw, hh, habx, haby, List.cons.injEq, Prod.mk.injEq]
    all_goals omega
  · have hy2 : ¬ b.y < a.y := not_lt.mpr hy
    have hw : (0 : Int) < a.x - b.x + 1 := by omega
    have hh : (0 : Int) < b.y - a.y + 1 := by omega
    have habx : |b.x - a.x| = a.x - b.x := by
      rw [abs_sub_comm]; exact abs_of_nonneg (by omega)
    have haby : |b.y - a.y| = b.y - a.y := abs_of_nonneg (by omega)
    simp [emissions, dragGesture, processEvents, processEvent, showOverlay,
      mousePressEvent, mouseMoveEvent, mouseReleaseEvent, QRect.fromPoints,
      QRect.normalized, QRect.width, QRect.height, QRect.x, QRect.y, hx, hy2,
      hw, hh, habx, haby, List.cons.injEq, Prod.mk.injEq]
    all_goals omega
  · have hx2 : ¬ b.x < a.x := not_lt.mpr hx
    have hw : (0 : Int) < b.x - a.x + 1 := by omega
    have hh : (0 : Int) < a.y - b.y + 1 := by omega
    have habx : |b.x - a.x| = b.x - a.x := abs_of_nonneg (by omega)
    have haby : |b.y - a.y| = a.y - b.y := by
      rw [abs_sub_comm]; exact abs_of_nonneg (by omega)
    simp [emissions, dragGesture, processEvents, processEvent, showOverlay,
      mousePressEvent, mouseMoveEvent, mouseReleaseEvent, QRect.fromPoints,
      QRect.normalized, QRect.width, QRect.height, QRect.x, QRect.y, hx2, hy,
      hw, hh, habx, haby, List.cons.injEq, Prod.mk.injEq]
    all_goals omega
  · have hx2 : ¬ b.x < a.x := not_lt.mpr hx
    have hy2 : ¬ b.y < a.y := not_lt.mpr hy
    have hw : (0 : Int) < b.x - a.x + 1 := by omega
    have hh : (0 : Int) < b.y - a.y + 1 := by omega
    have habx : |b.x - a.x| = b.x - a.x := abs_of_nonneg (by omega)
    have haby : |b.y - a.y| = b.y - a.y := abs_of_nonneg (by omega)
    simp [emissions, dragGesture, processEvents, processEvent, showOverlay,
      mousePressEvent, mouseMoveEvent, mouseReleaseEvent, QRect.fromPoints,
      QRect.normalized, QRect.width, QRect.height, QRect.x, QRect.y, hx2, hy2,
      hw, hh, habx, haby, List.cons.injEq, Prod.mk.injEq]
    all_goals omega

/-- Inverting the `quality_settings` lookup: a hit is one of exactly the
three table rows. -/
theorem lookup_quality_eq (q : String) (c : Nat)
    (h : List.lookup q quality_settings = some c) :
    (q = "Low" ∧ c = 28) ∨ (q = "Medium" ∧ c = 23) ∨ (q = "High" ∧ c = 18) := by
  cases hL : q == "Low" with
  | true =>
    simp only [quality_settings, List.lookup, hL, Option.some.injEq] at h
    exact Or.inl ⟨eq_of_beq hL, h.symm⟩
  | false =>
    cases hM : q == "Medium" with
    | true =>
      simp only [quality_settings, List.lookup, hL, hM, Option.some.injEq] at h
      exact Or.inr (Or.inl ⟨eq_of_beq hM, h.symm⟩)
    | false =>
      cases hH : q == "High" with
      | true =>
        simp only [quality_settings, List.lookup, hL, hM, hH,
          Option.some.injEq] at h
        exact Or.inr (Or.inr ⟨eq_of_beq hH, h.symm⟩)
      | false =>
        simp only [quality_settings, List.lookup, hL, hM, hH] at h
        exact Option.noConfusion h

/-! ## Claims -/

/-- Claim C1 (code bug): the claim says that a `Stop()` on a Running
session whose process is still alive after the 5-second graceful wait
escalates to a forced kill, never raises, and returns the stored temp
path.  The code instead lets the `TimeoutExpired` of `wait(timeout=5)`
propagate: at such a state `stop_capture` raises and returns no path,
and the `kill()` escalation of lines 92-94 is unreachable. -/
theorem stop_capture_timeout_uncaught :
    stop_capture ⟨some ⟨5, true, false⟩, some "/tmp/cap.mkv"⟩ =
      .error .timeoutExpired := rfl

/-- Claim C2, counterexample: a pure click (press and release at the
same pixel) emits one `selection_made` event, not zero: the same-point
`QRect` is 1x1 under Qt's inclusive-corner convention and passes the
positive-size guard. -/
theorem click_emission_nonzero :
    emissions [MouseEvent.press MouseButton.left ⟨5, 7⟩,
               MouseEvent.release MouseButton.left ⟨5, 7⟩] = [(5, 7, 1, 1)] ∧
    (emissions [MouseEvent.press MouseButton.left ⟨5, 7⟩,
                MouseEvent.release MouseButton.left ⟨5, 7⟩]).length ≠ 0 := by
  decide

/-- Claim C2, amended: for every pure click (press and release at the
same pixel with no movement), the RegionSelector emits exactly one
`selection_made` event, carrying the 1x1 rectangle at the click
point. -/
theorem click_emits_unit_rect (p : QPoint) :
    emissions [MouseEvent.press MouseButton.left p,
               MouseEvent.release MouseButton.left p] = [(p.x, p.y, 1, 1)] := by
  simp [emissions, processEvents, processEvent, showOverlay, mousePressEvent,
    mouseReleaseEvent, QRect.fromPoints, QRect.normalized, QRect.width,
    QRect.height, QRect.x, QRect.y]

/-- Claim C3, counterexample: the drag from (0,0) to (2,3) emits the
rectangle (0, 0, 3, 4), not (0, 0, 2, 3): width and height are
`|dx| + 1` and `|dy| + 1` under Qt's inclusive-corner convention, not
`|dx|` and `|dy|`. -/
theorem drag_emission_off_by_one :
    emissions (dragGesture ⟨0, 0⟩ ⟨2, 3⟩) = [(0, 0, 3, 4)] ∧
    emissions (dragGesture ⟨0, 0⟩ ⟨2, 3⟩) ≠ [(0, 0, 2, 3)] := by
  decide

/-- Claim C3, amended: for every completed drag from anchor `a` to
release point `b` with `a.x ≠ b.x` and `a.y ≠ b.y`, the emitted
rectangle has non-negative origin at the min corner, width
`|b.x - a.x| + 1` and height `|b.y - a.y| + 1`, and swapping the two
points emits exactly the same rectangle. -/
theorem drag_emits_normalized_rect (a b : QPoint)
    (_hx : a.x ≠ b.x) (_hy : a.y ≠ b.y) :
    emissions (dragGesture a b) =
      [(min a.x b.x, min a.y b.y,
        ((b.x - a.x).natAbs : Int) + 1, ((b.y - a.y).natAbs : Int) + 1)] ∧
    emissions (dragGesture a b) = emissions (dragGesture b a) := by
  refine ⟨emissions_dragGesture a b, ?_⟩
  rw [emissions_dragGesture a b, emissions_dragGesture b a]
  simp only [List.cons.injEq, Prod.mk.injEq, and_true]
  omega

/-- Witness for the amended claim C3 at the drag (0,0) to (2,3). -/
theorem drag_emits_normalized_rect_witness :
    ((⟨0, 0⟩ : QPoint).x ≠ (⟨2, 3⟩ : QPoint).x) ∧
    emissions (dragGesture ⟨0, 0⟩ ⟨2, 3⟩) = emissions (dragGesture ⟨2, 3⟩ ⟨0, 0⟩) :=
  ⟨by decide, (drag_emits_normalized_rect ⟨0, 0⟩ ⟨2, 3⟩ (by decide) (by decide)).2⟩

/-- Claim C4: a `start_capture` on a session whose process is running
(with the encoder tool resolvable, as it was when the session started)
takes the already-running return point, invokes no `Popen`, and leaves
the manager fields exactly as they were. -/
theorem start_capture_already_running (env : SpawnEnv) (s : CMState)
    (x y width height : Int) (output_file : String)
    (hff : env.ffmpegFound = true)
    (hrun : procRunning s.ffmpeg_process = true) :
    start_capture env s x y width height output_file =
      ⟨.alreadyRunning, s, none⟩ := by
  simp [start_capture, hff, hrun]

/-- Witness for claim C4: a running session with a stored temp path. -/
theorem start_capture_already_running_witness :
    procRunning (some ⟨3, true, true⟩) = true ∧
    start_capture ⟨true, some ":0.0", Except.ok ⟨7, true, true⟩⟩
        ⟨some ⟨3, true, true⟩, some "/tmp/old.mkv"⟩ 0 0 800 600 "/tmp/a.mkv" =
      ⟨.alreadyRunning, ⟨some ⟨3, true, true⟩, some "/tmp/old.mkv"⟩, none⟩ :=
  ⟨rfl, start_capture_already_running _ _ _ _ _ _ _ rfl rfl⟩

/-- Claim C5: `stop_capture` on a session that is not running (no
process, or a process that already exited) returns no path, raises no
exception, and leaves the manager fields unchanged. -/
theorem stop_capture_not_running (s : CMState)
    (h : procRunning s.ffmpeg_process = false) :
    stop_capture s = .ok (none, s) := by
  cases hp : s.ffmpeg_process with
  | none => simp [stop_capture, hp]
  | some p =>
    have hd : p.alive = false := by
      rw [hp] at h
      simpa [procRunning] using h
    simp [stop_capture, hp, hd]

/-- Witness for claim C5: a session whose process already exited. -/
theorem stop_capture_not_running_witness :
    procRunning (some ⟨2, false, true⟩) = false ∧
    stop_capture ⟨some ⟨2, false, true⟩, some "/tmp/t.mkv"⟩ =
      .ok (none, ⟨some ⟨2, false, true⟩, some "/tmp/t.mkv"⟩) :=
  ⟨rfl, stop_capture_not_running _ rfl⟩

/-- Claim C6: `re_encode_video` with a quality level that is none of the
three recognized levels (with the tool resolvable and the source
present, so the earlier checks pass) takes the invalid-quality return
point and never invokes `subprocess.run`. -/
theorem re_encode_invalid_quality (env : EncodeEnv)
    (input_file output_file q : String)
    (hff : env.ffmpegFound = true) (hex : env.inputExists = true)
    (h1 : q ≠ "Low") (h2 : q ≠ "Medium") (h3 : q ≠ "High") :
    re_encode_video env input_file output_file q = ⟨.invalidQuality, none⟩ := by
  have b1 : (q == "Low") = false := beq_eq_false_iff_ne.mpr h1
  have b2 : (q == "Medium") = false := beq_eq_false_iff_ne.mpr h2
  have b3 : (q == "High") = false := beq_eq_false_iff_ne.mpr h3
  simp [re_encode_video, hff, hex, quality_settings, List.lookup, b1, b2, b3]

/-- Witness for claim C6: the unrecognized level "Extreme". -/
theorem re_encode_invalid_quality_witness :
    ("Extreme" : String) ≠ "Low" ∧
    re_encode_video ⟨true, true, Except.ok ()⟩ "/tmp/a.mkv" "/tmp/out.mp4"
        "Extreme" = ⟨.invalidQuality, none⟩ :=
  ⟨by decide, re_encode_invalid_quality _ _ _ _ rfl rfl (by decide) (by decide)
      (by decide)⟩

/-- Claim C7: every successful `re_encode_video` call passed the encoder
exactly the fixed CRF mapping Low to 28, Medium to 23, High to 18
applied to the requested quality level. -/
theorem re_encode_crf_mapping (env : EncodeEnv)
    (input_file output_file q : String)
    (hs : (re_encode_video env input_file output_file q).result =
      .success) :
    (q = "Low" ∧ (re_encode_video env input_file output_file q).command =
        some (transcode_command input_file output_file 28)) ∨
    (q = "Medium" ∧ (re_encode_video env input_file output_file q).command =
        some (transcode_command input_file output_file 23)) ∨
    (q = "High" ∧ (re_encode_video env input_file output_file q).command =
        some (transcode_command input_file output_file 18)) := by
  by_cases hff : env.ffmpegFound = false
  · simp [re_encode_video, hff] at hs
  · by_cases hex : env.inputExists = false
    · simp [re_encode_video, hff, hex] at hs
    · cases hl : List.lookup q quality_settings with
      | none => simp [re_encode_video, hff, hex, hl] at hs
      | some crf =>
        cases hr : env.runResult with
        | error e => simp [re_encode_video, hff, hex, hl, hr] at hs
        | ok u =>
          have hcmd : (re_encode_video env input_file output_file q).command =
              some (transcode_command input_file output_file crf) := by
            simp [re_encode_video, hff, hex, hl, hr]
          rcases lookup_quality_eq q crf hl with ⟨hq, hc⟩ | ⟨hq, hc⟩ | ⟨hq, hc⟩
          · exact Or.inl ⟨hq, by rw [hcmd, hc]⟩
          · exact Or.inr (Or.inl ⟨hq, by rw [hcmd, hc]⟩)
          · exact Or.inr (Or.inr ⟨hq, by rw [hcmd, hc]⟩)

/-- Witness for claim C7: a successful Medium encode carries CRF 23. -/
theorem re_encode_crf_mapping_witness :
    (re_encode_video ⟨true, true, Except.ok ()⟩ "/tmp/a.mkv" "/tmp/out.mp4"
        "Medium").result = .success ∧
    ((("Medium" : String) = "Low" ∧
      (re_encode_video ⟨true, true, Except.ok ()⟩ "/tmp/a.mkv" "/tmp/out.mp4"
          "Medium").command =
        some (transcode_command "/tmp/a.mkv" "/tmp/out.mp4" 28)) ∨
     (("Medium" : String) = "Medium" ∧
      (re_encode_video ⟨true, true, Except.ok ()⟩ "/tmp/a.mkv" "/tmp/out.mp4"
          "Medium").command =
        some (transcode_command "/tmp/a.mkv" "/tmp/out.mp4" 23)) ∨
     (("Medium" : String) = "High" ∧
      (re_encode_video ⟨true, true, Except.ok ()⟩ "/tmp/a.mkv" "/tmp/out.mp4"
          "Medium").command =
        some (transcode_command "/tmp/a.mkv" "/tmp/out.mp4" 18))) :=
  ⟨by decide, re_encode_crf_mapping _ _ _ _ (by decide)⟩

/-- Claim C8: `delete_temp_file` never propagates an exception: it
always returns normally with some resulting filesystem; when the file is
missing the call is a no-op; and calling it again on its own result
changes nothing (two calls behave like one). -/
theorem delete_temp_file_safe (removeRaises : Bool) (fs : FS) (path : String) :
    ∃ fs1, delete_temp_file removeRaises fs path = .ok fs1 ∧
      (fs.existsFile path = false → fs1 = fs) ∧
      delete_temp_file removeRaises fs1 path = .ok fs1 := by
  by_cases hex : fs.existsFile path = true
  · cases removeRaises with
    | true =>
      refine ⟨fs, ?_, fun _ => rfl, ?_⟩ <;>
        simp [delete_temp_file, os_remove, hex]
    | false =>
      refine ⟨⟨fs.files.filter (fun q => !(q == path))⟩, ?_, ?_, ?_⟩
      · simp [delete_temp_file, os_remove, hex]
      · intro hfalse
        simp [hfalse] at hex
      · have hnot : FS.existsFile ⟨fs.files.filter (fun q => !(q == path))⟩
            path = false := contains_filter_self fs.files path
        simp [delete_temp_file, hnot]
  · have hex2 : fs.existsFile path = false := by
      cases h : fs.existsFile path
      · rfl
      · exact absurd h hex
    refine ⟨fs, ?_, fun _ => rfl, ?_⟩ <;> simp [delete_temp_file, hex2]

/-- Witness for claim C8: deleting an existing file, then again. -/
theorem delete_temp_file_safe_witness :
    ∃ fs1, delete_temp_file false ⟨["/tmp/a.mkv"]⟩ "/tmp/a.mkv" = .ok fs1 ∧
      (FS.existsFile ⟨["/tmp/a.mkv"]⟩ "/tmp/a.mkv" = false →
        fs1 = ⟨["/tmp/a.mkv"]⟩) ∧
      delete_temp_file false fs1 "/tmp/a.mkv" = .ok fs1 :=
  delete_temp_file_safe false ⟨["/tmp/a.mkv"]⟩ "/tmp/a.mkv"

/-- Claim C9, counterexample: when the spawn raises, the call does fail
at the spawn-failed return point, but the stored fields are not exactly
as before: `temp_output_file` was already overwritten with the new
output path before the spawn attempt. -/
theorem start_capture_spawn_error_overwrites_temp :
    (start_capture ⟨true, none, Except.error .fileNotFound⟩
        ⟨none, some "/tmp/old.mkv"⟩ 0 0 800 600 "/tmp/new.mkv").result =
      .spawnFailed ∧
    (start_capture ⟨true, none, Except.error .fileNotFound⟩
        ⟨none, some "/tmp/old.mkv"⟩ 0 0 800 600 "/tmp/new.mkv").state ≠
      ⟨none, some "/tmp/old.mkv"⟩ := by
  decide

/-- Claim C9, amended: a `start_capture` on a non-running session whose
spawn raises an OS-level error takes the spawn-failed return point, the
process handle is unchanged and the session stays non-capturing (Idle);
however the stored temp file path has already been set to the new output
path before the spawn attempt. -/
theorem start_capture_spawn_error (env : SpawnEnv) (s : CMState)
    (x y width height : Int) (output_file : String) (e : SpawnExc)
    (hff : env.ffmpegFound = true)
    (hrun : procRunning s.ffmpeg_process = false)
    (hsp : env.spawnResult = .error e) :
    (start_capture env s x y width height output_file).result = .spawnFailed ∧
    (start_capture env s x y width height output_file).state.ffmpeg_process =
      s.ffmpeg_process ∧
    (start_capture env s x y width height output_file).state.temp_output_file =
      some output_file ∧
    is_capturing (start_capture env s x y width height output_file).state =
      false := by
  simp [start_capture, is_capturing, hff, hrun, hsp]

/-- Witness for the amended claim C9: spawn raises on an idle session. -/
theorem start_capture_spawn_error_witness :
    procRunning (none : Option Proc) = false ∧
    ((start_capture ⟨true, none, Except.error .fileNotFound⟩
        ⟨none, some "/tmp/old.mkv"⟩ 0 0 800 600 "/tmp/new.mkv").result =
      .spawnFailed ∧
     (start_capture ⟨true, none, Except.error .fileNotFound⟩
        ⟨none, some "/tmp/old.mkv"⟩ 0 0 800 600 "/tmp/new.mkv").state.ffmpeg_process =
      (none : Option Proc) ∧
     (start_capture ⟨true, none, Except.error .fileNotFound⟩
        ⟨none, some "/tmp/old.mkv"⟩ 0 0 800 600 "/tmp/new.mkv").state.temp_output_file =
      some "/tmp/new.mkv" ∧
     is_capturing (start_capture ⟨true, none, Except.error .fileNotFound⟩
        ⟨none, some "/tmp/old.mkv"⟩ 0 0 800 600 "/tmp/new.mkv").state = false) :=
  ⟨rfl, start_capture_spawn_error _ _ _ _ _ _ _ .fileNotFound rfl rfl rfl⟩

/-- Claim C10: on a session whose process was started and then exited on
its own before `Stop()`, `stop_capture` returns `none`, never the stored
temp file path. -/
theorem stop_capture_dead_process_returns_none (s : CMState) (p : Proc)
    (path : String) (hp : s.ffmpeg_process = some p) (hd : p.alive = false)
    (_ht : s.temp_output_file = some path) :
    stop_capture s = .ok (none, s) ∧ (none : Option String) ≠ some path := by
  refine ⟨?_, by simp⟩
  simp [stop_capture, hp, hd]

/-- Witness for claim C10: a crashed process with a stored temp path. -/
theorem stop_capture_dead_process_returns_none_witness :
    (⟨some ⟨9, false, true⟩, some "/tmp/z.mkv"⟩ : CMState).ffmpeg_process =
      some ⟨9, false, true⟩ ∧
    (stop_capture ⟨some ⟨9, false, true⟩, some "/tmp/z.mkv"⟩ =
      .ok (none, ⟨some ⟨9, false, true⟩, some "/tmp/z.mkv"⟩) ∧
     (none : Option String) ≠ some "/tmp/z.mkv") :=
  ⟨rfl, stop_capture_dead_process_returns_none _ _ _ rfl rfl rfl⟩
